import Mathlib

/-!
Shallow embedding of the django-stator state-machine engine
(`django_stator/graph.py` and `django_stator/models.py`).

Modelling conventions:
* Timestamps and durations are integer seconds (`Int`).  Python `float`
  durations are modelled as integers; `datetime.timedelta(x)` interprets its
  first positional argument as **days**, i.e. `x * 86400` seconds, while
  `datetime.timedelta(seconds=x)` is `x` seconds — both appear in the source
  and are modelled exactly as written.
* Python `State` objects are identified by their (unique) `name`; the sets
  `children`/`parents` of state objects become lists of names, and Python
  `set.add` becomes `setAdd` (append if not present).
* A Django queryset over the model's table is a `List Row`; an unfiltered
  queryset enumerates the table in storage order.
* Python exceptions that propagate out of an engine function are modelled
  with `Except String` (the string holds the exception class and message);
  when an exception propagates, no further writes happen, so the error case
  carries no updated rows.
* Python truthiness of an optional number (`if state.retry_after:`) is
  `optTruthy`: `None` and `0` are falsy.
-/

deriving instance DecidableEq for Except

namespace Stator

abbrev Time := Int

/-- Python truthiness of an optional numeric attribute: `None` and `0` are
falsy, every other number is truthy. -/
def optTruthy : Option Int → Bool
  | none => false
  | some v => v != 0

/-- One `State` object of `graph.py` (class `State`), identified by its
`name` (assigned by `_add_to_graph`).  `parents` and `children` are the
name-sets of the referenced state objects; `timeout_state` likewise holds
the name of the referenced state. -/
structure StateSpec where
  name : String
  transition_function : Option String
  externally_progressed : Bool
  start_after : Int
  retry_after : Option Int
  delete_after : Option Int
  force_initial : Bool
  parents : List String
  children : List String
  timeout_state : Option String
  timeout_after : Option Int
deriving Repr, DecidableEq

/-- `State.__init__` (graph.py lines 103-129): validates that the three
durations are non-negative, then initialises `parents`, `children`,
`timeout_state`, `timeout_after` to their empty values.  The `name` is the
attribute name later assigned by `_add_to_graph`. -/
def stateInit (name : String) (transition_function : Option String)
    (externally_progressed : Bool) (start_after : Int)
    (retry_after : Option Int) (delete_after : Option Int)
    (force_initial : Bool) : Except String StateSpec :=
  if start_after < 0 then
    .error "ValueError: start_after cannot be negative"
  else if (retry_after.getD 0) < 0 then
    .error "ValueError: retry_after cannot be negative"
  else if (delete_after.getD 0) < 0 then
    .error "ValueError: delete_after cannot be negative"
  else
    .ok { name := name
          transition_function := transition_function
          externally_progressed := externally_progressed
          start_after := start_after
          retry_after := retry_after
          delete_after := delete_after
          force_initial := force_initial
          parents := []
          children := []
          timeout_state := none
          timeout_after := none }

/-- Python `set.add` on a name-set. -/
def setAdd (xs : List String) (x : String) : List String :=
  if x ∈ xs then xs else xs ++ [x]

/-- Replace the state named `n` in the class body by `f` of it (models a
mutation of that one `State` object). -/
def updateState (states : List StateSpec) (n : String)
    (f : StateSpec → StateSpec) : List StateSpec :=
  states.map (fun s => if s.name = n then f s else s)

/-- `State.transitions_to` (graph.py lines 156-158), exactly as written:
`self.children.add(other)` and `other.parents.add(other)` — note that the
source adds `other` (not `self`) to `other.parents`. -/
def transitionsTo (states : List StateSpec) (selfName otherName : String) :
    List StateSpec :=
  let states :=
    updateState states selfName
      (fun s => { s with children := setAdd s.children otherName })
  updateState states otherName
    (fun s => { s with parents := setAdd s.parents otherName })

/-- `State.timeout_to` (graph.py lines 160-166): errors if a timeout state
is already set, otherwise sets `timeout_state`/`timeout_after` and adds the
same (buggy) edge bookkeeping as `transitions_to`. -/
def timeoutTo (states : List StateSpec) (selfName otherName : String)
    (seconds : Int) : Except String (List StateSpec) :=
  match states.find? (fun s => s.name == selfName) with
  | none => .error "NameError"
  | some s =>
    if s.timeout_state.isSome then
      .error "ValueError: Timeout state already set!"
    else
      let states :=
        updateState states selfName
          (fun s => { s with
            timeout_state := some otherName
            timeout_after := some seconds
            children := setAdd s.children otherName })
      .ok (updateState states otherName
        (fun s => { s with parents := setAdd s.parents otherName }))

/-- `State.initial` (graph.py lines 168-170). -/
def StateSpec.isInitial (s : StateSpec) : Bool :=
  s.force_initial || s.parents.isEmpty

/-- `State.terminal` (graph.py lines 172-174). -/
def StateSpec.isTerminal (s : StateSpec) : Bool :=
  s.children.isEmpty

/-- The relevant content of a `StateGraph` subclass body: its `State`
members (in declaration order, with all `transitions_to` / `timeout_to`
edge declarations already executed, since the class body runs before
`__init_subclass__`), and the names of its callable members together with
whether each is bound to the class (a classmethod). -/
structure GraphDecl where
  states : List StateSpec
  methods : List (String × Bool)
deriving Repr, DecidableEq

/-- The class attributes assigned on the `StateGraph` subclass by
`__init_subclass__` (graph.py lines 88-95).  `timeout_states` is an
`Option` because the source computes the local set but has no
`cls.timeout_states = timeout_states` assignment: the attribute stays
unassigned, which `none` models (reading it raises `AttributeError`). -/
structure GraphClass where
  states : List StateSpec
  choices : List (String × String)
  initial_state : String
  terminal_states : List String
  automatic_states : List String
  deletion_states : List String
  timeout_states : Option (List String)
deriving Repr, DecidableEq

/-- `State._add_to_graph` (graph.py lines 131-140): the part that defaults
`transition_function` to `check_{name}`. -/
def addToGraph (s : StateSpec) : StateSpec :=
  match s.transition_function with
  | none => { s with transition_function := some ("check_" ++ s.name) }
  | some _ => s

/-- `state.handler` resolves (graph.py 176-181): `getattr` of the graph
class by `transition_function` name succeeds. -/
def hasHandler (methods : List (String × Bool)) (s : StateSpec) : Bool :=
  match s.transition_function with
  | none => false
  | some f => (methods.find? (fun m => m.1 == f)).isSome

/-- The resolved handler is bound to the class (`inspect.ismethod` /
`__self__` check of graph.py lines 81-83): true when the callable member is
a classmethod. -/
def handlerIsClassmethod (methods : List (String × Bool)) (s : StateSpec) :
    Bool :=
  match s.transition_function with
  | none => false
  | some f =>
    match methods.find? (fun m => m.1 == f) with
    | some m => m.2
    | none => false

/-- Accumulator of the per-state validation loop of `__init_subclass__`
(graph.py lines 37-41): the possibly mutated states plus the five derived
collections (Python sets of state objects, here name lists in iteration
order). -/
structure LoopAcc where
  states : List StateSpec
  initial : Option String
  terminal : List String
  automatic : List String
  deletion : List String
  timeout : List String
deriving Repr, DecidableEq

/-- One iteration of the validation loop of `__init_subclass__`
(graph.py lines 42-87), for the state `s`, raising (via `Except.error`) on
the first violated invariant.  Terminal states are mutated in place:
`state.externally_progressed = True`. -/
def checkState (methods : List (String × Bool)) (acc : LoopAcc)
    (s : StateSpec) : Except String LoopAcc := do
  let acc ←
    if s.isInitial then
      match acc.initial with
      | some i =>
        Except.error
          ("ValueError: The graph has more than one initial state: " ++
            i ++ " and " ++ s.name)
      | none => Except.ok { acc with initial := some s.name }
    else Except.ok acc
  let acc :=
    if optTruthy s.delete_after then
      { acc with deletion := acc.deletion ++ [s.name] }
    else acc
  let acc :=
    if optTruthy s.timeout_after then
      { acc with timeout := acc.timeout ++ [s.name] }
    else acc
  if s.isTerminal then
    let acc :=
      { acc with
        states :=
          updateState acc.states s.name
            (fun t => { t with externally_progressed := true })
        terminal := acc.terminal ++ [s.name] }
    if hasHandler methods s then
      Except.error
        ("ValueError: Terminal state " ++ s.name ++
          " should not have a check method")
    else
      Except.ok acc
  else
    if !s.externally_progressed then
      if !optTruthy s.retry_after then
        Except.error
          ("ValueError: State " ++ s.name ++
            " has no retry_after and is not terminal or manual")
      else if !hasHandler methods s then
        Except.error
          ("ValueError: State " ++ s.name ++ " does not have a check method")
      else if !handlerIsClassmethod methods s then
        Except.error
          ("ValueError: State " ++ s.name ++
            " check method is not a classmethod")
      else
        Except.ok { acc with automatic := acc.automatic ++ [s.name] }
    else
      Except.ok acc

/-- The reserved attribute names of graph.py line 26. -/
def reservedNames : List String := ["initial_state", "terminal_states", "choices"]

/-- `StateGraph.__init_subclass__` (graph.py lines 20-95): default the
transition-function names, reject reserved member names, run the validation
loop over the states in declaration order, require an initial state, and
assign the class attributes.  The source computes the local `timeout_states`
set but never assigns `cls.timeout_states`, so the result's
`timeout_states` field is `none` (attribute unassigned). -/
def initSubclass (decl : GraphDecl) : Except String GraphClass := do
  let states := decl.states.map addToGraph
  let _ ← states.foldlM (fun (_ : Unit) s =>
      if s.name ∈ reservedNames then
        Except.error
          ("ValueError: Cannot name a state " ++ s.name ++
            " - this is reserved")
      else Except.ok ()) ()
  let _ ← decl.methods.foldlM (fun (_ : Unit) m =>
      if m.1 ∈ reservedNames then
        Except.error
          ("ValueError: Cannot name a state " ++ m.1 ++
            " - this is reserved")
      else Except.ok ()) ()
  let acc ← states.foldlM (checkState decl.methods)
    { states := states, initial := none, terminal := [], automatic := [],
      deletion := [], timeout := [] }
  match acc.initial with
  | none => Except.error "ValueError: The graph has no initial state"
  | some init =>
    Except.ok
      { states := acc.states
        choices := states.map (fun s => (s.name, s.name))
        initial_state := init
        terminal_states := acc.terminal
        automatic_states := acc.automatic
        deletion_states := acc.deletion
        timeout_states := none }

/-! ## models.py: the managed rows and the per-model transition engine -/

/-- One managed row (`StatorModel` fields, models.py lines 41-61). -/
structure Row where
  pk : Nat
  state : String
  state_changed : Time
  state_next : Option Time
deriving Repr, DecidableEq

/-- `STATOR_BATCH_SIZE` (models.py line 50). -/
def STATOR_BATCH_SIZE : Nat := 500

/-- Sort key of `order_by("state_next")`; every row it is applied to has a
non-null `state_next` (the queryset filters on `state_next__lte`). -/
def rowKey (r : Row) : Int := r.state_next.getD 0

/-- Ascending order on `state_next`, the `order_by("state_next")` of
models.py line 94. -/
def rowLE (a b : Row) : Prop := rowKey a ≤ rowKey b

instance : DecidableRel rowLE := fun a b =>
  inferInstanceAs (Decidable (rowKey a ≤ rowKey b))

instance : IsTotal Row rowLE := ⟨fun a b => Int.le_total (rowKey a) (rowKey b)⟩

instance : IsTrans Row rowLE := ⟨fun _ _ _ hab hbc => le_trans hab hbc⟩

/-- The filter `state_next__lte=timezone.now()` (models.py line 93): SQL
`<=` is false on NULL. -/
def isReady (now : Time) (r : Row) : Bool :=
  match r.state_next with
  | some t => t ≤ now
  | none => false

/-- `StatorModel.state_get_ready` (models.py lines 81-100): in one
transaction, select up to `number` rows with `state_next <= now` ordered by
`state_next`, bump the selected rows' `state_next` to
`now + timedelta(seconds=lock_period * 2)`, and return the selected rows.
Returns `(selected, updated table)`. -/
def stateGetReady (db : List Row) (number : Nat) (lock_period : Int)
    (now : Time) : List Row × List Row :=
  let selected := (List.insertionSort rowLE (db.filter (isReady now))).take number
  let pks := selected.map Row.pk
  let db2 := db.map (fun r =>
    if r.pk ∈ pks then { r with state_next := some (now + lock_period * 2) }
    else r)
  (selected, db2)

/-- `StatorModel.state_do_deletes` (models.py lines 102-115), exactly as
written: for each deletion state, take up to `STATOR_BATCH_SIZE` rows whose
`state_changed <= now - state.delete_after` — the queryset has **no filter
on the row's `state`** — and delete them by primary key, accumulating the
count that `.delete()` reports.  `deletion_states` is
`cls.state_graph.deletion_states`, whose members all have a truthy
`delete_after`. -/
def stateDoDeletes (deletion_states : List StateSpec) (db : List Row)
    (now : Time) : Nat × List Row :=
  deletion_states.foldl (fun acc st =>
    let db := acc.2
    let to_delete :=
      (db.filter (fun r => r.state_changed ≤ now - st.delete_after.getD 0)).take
        STATOR_BATCH_SIZE
    let pks := to_delete.map Row.pk
    (acc.1 + (db.filter (fun r => r.pk ∈ pks)).length,
      db.filter (fun r => r.pk ∉ pks)))
    (0, db)

/-- `StatorModel.state_count_pending` (models.py lines 117-123). -/
def stateCountPending (db : List Row) (now : Time) : Nat :=
  (db.filter (isReady now)).length

/-- The `state` argument of `state_transition_queryset`: either a `State`
object (a graph state, identified by its name) or a plain name string. -/
inductive StateArg
  | obj (name : String)
  | str (name : String)
deriving Repr, DecidableEq

/-- `StatorModel.state_transition_queryset` (models.py lines 191-219):
resolve the canonical state object from `cls.state_graph.states` (a missing
key raises `KeyError`), then `assert isinstance(state, State)` — which
**fails for a string argument** — and update every row of the queryset:
`state` to the state (stored as its name by `StateField.get_prep_value`),
`state_changed = now`, and `state_next` to `None` for an
externally-progressed state, else `now + timedelta(seconds=start_after)`.
`states` is the graph's state dictionary. -/
def stateTransitionQueryset (states : List StateSpec) (rows : List Row)
    (arg : StateArg) (now : Time) : Except String (List Row) :=
  let argName := match arg with | .obj n => n | .str n => n
  match states.find? (fun s => s.name == argName) with
  | none => .error ("KeyError: " ++ argName)
  | some state_obj =>
    match arg with
    | .str _ => .error "AssertionError: isinstance(state, State)"
    | .obj _ =>
      if state_obj.externally_progressed then
        .ok (rows.map (fun r =>
          { r with state := state_obj.name, state_changed := now,
                   state_next := none }))
      else
        .ok (rows.map (fun r =>
          { r with state := state_obj.name, state_changed := now,
                   state_next := some (now + state_obj.start_after) }))

/-- `StatorModel.state_transition` (models.py lines 181-189): apply
`state_transition_queryset` to the one-row queryset of this instance, then
`refresh_from_db` (the updated row is the new in-memory instance). -/
def stateTransition (graphStates : List StateSpec) (row : Row)
    (arg : StateArg) (now : Time) : Except String Row :=
  match stateTransitionQueryset graphStates [row] arg now with
  | .error e => .error e
  | .ok [r] => .ok r
  | .ok _ => .error "impossible: single-row queryset"

/-- What `current_state.handler(self)` returned: a `State` object (a graph
state, identified by name) or a name string. -/
inductive HandlerValue
  | stateObj (name : String)
  | stateName (s : String)
deriving Repr, DecidableEq

/-- Python truthiness of the handler's return value (`if next_state:`,
models.py line 153): a `State` object is truthy, a string is truthy iff
non-empty. -/
def handlerValueTruthy : HandlerValue → Bool
  | .stateObj _ => true
  | .stateName s => s ≠ ""

/-- The observable behaviour of the handler call of models.py lines
143-147: it either returns a value (`None`, a state or a name), or raises
`TryAgainLater`, the injected `TimeoutError`, or some other exception. -/
inductive HandlerOutcome
  | returns (v : Option HandlerValue)
  | raisesTryAgainLater
  | raisesTimeout
  | raisesOther
deriving Repr, DecidableEq

/-- Result of `state_transition_check`: the new state together with the
refreshed row, `None` with the row as saved (only `state_next` may have
changed), or a propagated exception (in which case nothing was written
after the point of the raise). -/
inductive CheckResult
  | transitioned (state : String) (row : Row)
  | noTransition (row : Row)
  | raised (msg : String)
deriving Repr, DecidableEq

/-- Whether a check result is a transition. -/
def CheckResult.isTransition : CheckResult → Bool
  | .transitioned _ _ => true
  | _ => false

/-- The forced transition a check performs (`self.state_transition(...)`
with a `State` object, models.py line 162 and line 171), packaged as a
`CheckResult`: a raised `KeyError` propagates. -/
def applyCheckTransition (graphStates : List StateSpec) (row : Row)
    (target : String) (now : Time) : CheckResult :=
  match stateTransition graphStates row (.obj target) now with
  | .ok r => .transitioned target r
  | .error e => .raised e

/-- Lines 165-179 of models.py: after the handler produced no transition
(returned a falsy value or raised a caught exception), check the timeout —
`current_state.timeout_state and current_state.timeout_after and
current_state.timeout_after <= self.state_age` — and otherwise reschedule:
`ValueError` if `retry_after is None`, else
`state_next = now + timedelta(current_state.retry_after)`, whose first
positional argument is **days** (86400 seconds each). -/
def afterHandler (graphStates : List StateSpec) (row : Row)
    (current_state : StateSpec) (now : Time) : CheckResult :=
  match current_state.timeout_state with
  | some ts =>
    if optTruthy current_state.timeout_after &&
        decide (current_state.timeout_after.getD 0 ≤ now - row.state_changed) then
      applyCheckTransition graphStates row ts now
    else if current_state.retry_after = none then
      .raised ("ValueError: Invalid retry_after on state " ++ current_state.name)
    else
      .noTransition { row with
        state_next := some (now + current_state.retry_after.getD 0 * 86400) }
  | none =>
    if current_state.retry_after = none then
      .raised ("ValueError: Invalid retry_after on state " ++ current_state.name)
    else
      .noTransition { row with
        state_next := some (now + current_state.retry_after.getD 0 * 86400) }

/-- Lines 153-163 of models.py (the `else` clause when the handler returned
a truthy value): coerce a name string via `self.state_graph.states[...]`
(`KeyError` propagates), enforce membership in `current_state.children`
(`ValueError` propagates), then apply and return the transition. -/
def applyDeclared (graphStates : List StateSpec) (row : Row)
    (current_state : StateSpec) (v : HandlerValue) (now : Time) : CheckResult :=
  match v with
  | .stateName s =>
    (match graphStates.find? (fun st => st.name == s) with
     | none => .raised ("KeyError: " ++ s)
     | some st =>
       if st.name ∈ current_state.children then
         applyCheckTransition graphStates row st.name now
       else
         .raised ("ValueError: Cannot transition from " ++
           current_state.name ++ " to " ++ st.name ++
           " - not a declared transition"))
  | .stateObj n =>
    if n ∈ current_state.children then
      applyCheckTransition graphStates row n now
    else
      .raised ("ValueError: Cannot transition from " ++
        current_state.name ++ " to " ++ n ++
        " - not a declared transition")

/-- `StatorModel.state_transition_check` (models.py lines 125-179).
`graphStates` is `self.state_graph.states`; a missing current state raises
`KeyError`.  An externally-progressed current state nulls `state_next` and
returns `None`.  Otherwise the handler runs (its behaviour is the
`outcome` argument); `TryAgainLater`, `TimeoutError` and any other
exception are caught (lines 148-151) and fall through, like a falsy return
value, to the timeout check and the reschedule of `afterHandler`. -/
def stateTransitionCheck (graphStates : List StateSpec) (row : Row)
    (outcome : HandlerOutcome) (now : Time) : CheckResult :=
  match graphStates.find? (fun s => s.name == row.state) with
  | none => .raised ("KeyError: " ++ row.state)
  | some current_state =>
    if current_state.externally_progressed then
      .noTransition { row with state_next := none }
    else
      match outcome with
      | .returns (some v) =>
        if handlerValueTruthy v then
          applyDeclared graphStates row current_state v now
        else
          afterHandler graphStates row current_state now
      | _ => afterHandler graphStates row current_state now

/-! ## Concrete graphs, used to evaluate the engine at explicit inputs

`demo` mirrors the shape of the test application's graph: an automatic
state `new` that may move to the externally progressed state `done`
(`new.transitions_to(done)`) and times out into the deletable state
`timed_out` after 10 seconds (`new.timeout_to(timed_out, seconds=10)`). -/

/-- Extract the states of a successful edge declaration. -/
def getOkStates (e : Except String (List StateSpec)) : List StateSpec :=
  e.toOption.getD []

/-- Extract a successfully constructed graph class. -/
def getOkGraph (e : Except String GraphClass) : GraphClass :=
  e.toOption.getD ⟨[], [], "", [], [], [], none⟩

/-- `new = State(retry_after=30)` of the demo graph. -/
def newS : StateSpec :=
  ⟨"new", none, false, 0, some 30, none, false, [], [], none, none⟩

/-- `done = State(externally_progressed=True)` of the demo graph. -/
def doneS : StateSpec :=
  ⟨"done", none, true, 0, none, none, false, [], [], none, none⟩

/-- `timed_out = State(delete_after=10)` of the demo graph. -/
def timedOutS : StateSpec :=
  ⟨"timed_out", none, false, 0, none, some 10, false, [], [], none, none⟩

/-- The demo graph's class body after its edge declarations
`new.transitions_to(done)` and `new.timeout_to(timed_out, seconds=10)`. -/
def demoBody : List StateSpec :=
  getOkStates
    (timeoutTo (transitionsTo [newS, doneS, timedOutS] "new" "done")
      "new" "timed_out" 10)

/-- The demo graph declaration: the states above plus the classmethod
`check_new`. -/
def demoDecl : GraphDecl := ⟨demoBody, [("check_new", true)]⟩

/-- The constructed demo graph class. -/
def demoG : GraphClass := getOkGraph (initSubclass demoDecl)

/-- A graph with a zero-second timeout: `a = State(retry_after=5)`,
`b = State()`, `a.timeout_to(b, seconds=0)`, classmethod `check_a`. -/
def zeroTmoBody : List StateSpec :=
  getOkStates
    (timeoutTo
      [⟨"a", none, false, 0, some 5, none, false, [], [], none, none⟩,
       ⟨"b", none, false, 0, none, none, false, [], [], none, none⟩]
      "a" "b" 0)

/-- The zero-timeout graph's declaration. -/
def zeroTmoDecl : GraphDecl := ⟨zeroTmoBody, [("check_a", true)]⟩

/-- The constructed zero-timeout graph class. -/
def zeroTmoG : GraphClass := getOkGraph (initSubclass zeroTmoDecl)

/-- The state name the handler's return value resolves to in the coercion
of models.py lines 154-156: a `State` object is its own name, a non-empty
name string resolves through `state_graph.states` (its canonical name), an
empty string is falsy and resolves to nothing. -/
def handlerResolves (graphStates : List StateSpec) : HandlerValue → Option String
  | .stateObj n => some n
  | .stateName s =>
    if s = "" then none
    else (graphStates.find? (fun st => st.name == s)).map StateSpec.name

/-- The handler produced no transition: it returned a falsy value, or it
raised an exception that lines 148-151 of models.py catch. -/
def noTransitionOutcome : HandlerOutcome → Bool
  | .returns none => true
  | .returns (some v) => !handlerValueTruthy v
  | .raisesTryAgainLater => true
  | .raisesTimeout => true
  | .raisesOther => true

/-! ## Helper lemmas about the engine -/

/-- Evaluating the forced transition a check performs: either the target is
not a graph state and `KeyError` propagates, or the row is updated to the
target with `state_changed = now` and `state_next` given by the target's
`externally_progressed` / `start_after`. -/
theorem applyCheckTransition_eval (gs : List StateSpec) (row : Row)
    (target : String) (now : Time) :
    (gs.find? (fun st => st.name == target) = none ∧
      applyCheckTransition gs row target now = .raised ("KeyError: " ++ target)) ∨
    (∃ q, gs.find? (fun st => st.name == target) = some q ∧ q.name = target ∧
      applyCheckTransition gs row target now =
        .transitioned target { row with
          state := target
          state_changed := now
          state_next :=
            if q.externally_progressed then none
            else some (now + q.start_after) }) := by
  cases hq : gs.find? (fun st => st.name == target) with
  | none =>
    left
    refine ⟨rfl, ?_⟩
    simp [applyCheckTransition, stateTransition, stateTransitionQueryset, hq]
  | some q =>
    right
    have hname : q.name = target := by
      have := List.find?_some hq
      exact eq_of_beq this
    refine ⟨q, rfl, hname, ?_⟩
    by_cases hext : q.externally_progressed <;>
      simp [applyCheckTransition, stateTransition, stateTransitionQueryset,
        hq, hext, hname]

/-- If the fall-through path of the check (timeout then reschedule)
produced a transition, it was the forced timeout transition: the new state
is the current state's `timeout_state` and the row now carries it. -/
theorem afterHandler_transitioned (gs : List StateSpec) (row : Row)
    (cs : StateSpec) (now : Time) (s : String) (row2 : Row) :
    afterHandler gs row cs now = .transitioned s row2 →
    cs.timeout_state = some s ∧ row2.state = s := by
  intro h
  unfold afterHandler at h
  split at h
  · rename_i ts hts
    split at h
    · rcases applyCheckTransition_eval gs row ts now with ⟨_, he⟩ | ⟨q, _, _, he⟩
      · rw [he] at h; simp at h
      · rw [he] at h
        cases h
        exact ⟨hts, rfl⟩
    · split at h <;> simp at h
  · split at h <;> simp at h

/-- If the declared-transition path of the check produced a transition, the
new state is in the current state's `children` and the row carries it. -/
theorem applyDeclared_transitioned (gs : List StateSpec) (row : Row)
    (cs : StateSpec) (v : HandlerValue) (now : Time) (s : String) (row2 : Row) :
    applyDeclared gs row cs v now = .transitioned s row2 →
    s ∈ cs.children ∧ row2.state = s := by
  cases v with
  | stateName sn =>
    intro h
    simp only [applyDeclared] at h
    split at h
    · simp at h
    · rename_i st hf
      split at h
      · rename_i hmem
        rcases applyCheckTransition_eval gs row st.name now with ⟨_, he⟩ | ⟨q, _, _, he⟩
        · rw [he] at h; simp at h
        · rw [he] at h
          cases h
          exact ⟨hmem, rfl⟩
      · simp at h
  | stateObj n =>
    intro h
    simp only [applyDeclared] at h
    split at h
    · rename_i hmem
      rcases applyCheckTransition_eval gs row n now with ⟨_, he⟩ | ⟨q, _, _, he⟩
      · rw [he] at h; simp at h
      · rw [he] at h
        cases h
        exact ⟨hmem, rfl⟩
    · simp at h

/-- When the current state is resolved and is not externally progressed,
the check with a truthy handler return value is the declared-transition
path. -/
theorem check_eval_truthy (gs : List StateSpec) (row : Row) (v : HandlerValue)
    (now : Time) (current : StateSpec)
    (hfind : gs.find? (fun s => s.name == row.state) = some current)
    (hext : current.externally_progressed = false)
    (htr : handlerValueTruthy v = true) :
    stateTransitionCheck gs row (.returns (some v)) now =
      applyDeclared gs row current v now := by
  unfold stateTransitionCheck
  rw [hfind]
  simp [hext, htr]

/-- When the current state is resolved and is not externally progressed,
the check with a handler that produced no transition is the fall-through
path (timeout, then reschedule). -/
theorem check_eval_noTransition (gs : List StateSpec) (row : Row)
    (outcome : HandlerOutcome) (now : Time) (current : StateSpec)
    (hfind : gs.find? (fun s => s.name == row.state) = some current)
    (hext : current.externally_progressed = false)
    (hno : noTransitionOutcome outcome = true) :
    stateTransitionCheck gs row outcome now =
      afterHandler gs row current now := by
  unfold stateTransitionCheck
  rw [hfind]
  cases outcome with
  | returns v =>
    cases v with
    | none => simp [hext]
    | some hv =>
      have hf : handlerValueTruthy hv = false := by
        simpa [noTransitionOutcome] using hno
      simp [hext, hf]
  | raisesTryAgainLater => simp [hext]
  | raisesTimeout => simp [hext]
  | raisesOther => simp [hext]

/-! ## Claim theorems -/

/-- C1: evaluation of `state_do_deletes` at a concrete failing input.  The
demo graph's only deletion state is `timed_out` with `delete_after = 10`
and the state `new` has no `delete_after`, yet sweeping at `now = 100` a
table with a row in state `new` of age 100, a row in `timed_out` of age
100 and a row in `timed_out` of age 5 deletes the `new` row together with
the stale `timed_out` row: the queryset of models.py line 110 filters only
on `state_changed`, never on `state`, so rows whose current state has no
`delete_after` are deleted too. -/
theorem C1_doDeletes_deletes_rows_outside_deletion_states :
    (demoG.states.filter (fun s => s.name ∈ demoG.deletion_states)).map
        StateSpec.delete_after = [some 10]
    ∧ "new" ∉ demoG.deletion_states
    ∧ (demoG.states.find? (fun s => s.name == "new")).map
        StateSpec.delete_after = some none
    ∧ stateDoDeletes
        (demoG.states.filter (fun s => s.name ∈ demoG.deletion_states))
        [⟨1, "new", 0, some 0⟩, ⟨2, "timed_out", 0, none⟩,
         ⟨3, "timed_out", 95, none⟩] 100 =
      (2, [⟨3, "timed_out", 95, none⟩]) := by
  decide

/-- C2: evaluation of `state_transition_check` on the reschedule path at a
concrete input.  In the demo graph the state `new` has
`retry_after = 30` (seconds); a handler returning no transition at
`now = 1000` with no timeout due reschedules the row to
`state_next = 1000 + 30 * 86400` — `timedelta(retry_after)` of models.py
line 177 interprets `retry_after` as days — not to `now + 30` seconds as
the claim states. -/
theorem C2_reschedule_uses_days_not_seconds :
    (demoG.states.find? (fun s => s.name == "new")).map StateSpec.retry_after
      = some (some 30)
    ∧ stateTransitionCheck demoG.states ⟨1, "new", 1000, some 1000⟩
        (.returns none) 1000 =
      .noTransition ⟨1, "new", 1000, some (1000 + 30 * 86400)⟩
    ∧ (1000 + 30 * 86400 : Int) ≠ 1000 + 30 := by
  decide

/-- C3: evaluation of `transitions_to` at a concrete input.  After
`a.transitions_to(b)` on two fresh states, `b` is in `a.children`, but
`a` is **not** in `b.parents`: line 158 of graph.py adds `other` (that is,
`b` itself) to `b.parents` instead of `self`. -/
theorem C3_transitionsTo_adds_other_to_own_parents :
    ((transitionsTo
        [⟨"a", none, false, 0, some 5, none, false, [], [], none, none⟩,
         ⟨"b", none, false, 0, some 5, none, false, [], [], none, none⟩]
        "a" "b").find? (fun s => s.name == "a")).map StateSpec.children
      = some ["b"]
    ∧ ((transitionsTo
        [⟨"a", none, false, 0, some 5, none, false, [], [], none, none⟩,
         ⟨"b", none, false, 0, some 5, none, false, [], [], none, none⟩]
        "a" "b").find? (fun s => s.name == "b")).map StateSpec.parents
      = some ["b"]
    ∧ "a" ∉ (((transitionsTo
        [⟨"a", none, false, 0, some 5, none, false, [], [], none, none⟩,
         ⟨"b", none, false, 0, some 5, none, false, [], [], none, none⟩]
        "a" "b").find? (fun s => s.name == "b")).map StateSpec.parents).getD []
    := by
  decide

/-- C4: `__init_subclass__` on the demo graph (which has a state with
`timeout_state` set) succeeds and assigns `initial_state`,
`terminal_states`, `automatic_states` and `deletion_states` — but
`timeout_states` is never assigned (graph.py lines 88-94 have no
`cls.timeout_states = ...`), modelled by the field staying `none`, so the
graph does not expose the timeout-states set the claim describes. -/
theorem C4_timeout_states_never_assigned :
    (initSubclass demoDecl).toOption.isSome = true
    ∧ demoG.initial_state = "new"
    ∧ demoG.terminal_states = ["done", "timed_out"]
    ∧ demoG.automatic_states = ["new"]
    ∧ demoG.deletion_states = ["timed_out"]
    ∧ (demoG.states.filter (fun s => s.timeout_state.isSome)).map
        StateSpec.name = ["new"]
    ∧ demoG.timeout_states = none := by
  decide

/-- C5: evaluation of `state_transition_queryset` at concrete inputs.
Given the target as a `State` object, the rows are updated as the claim
describes (`done` is externally progressed, so `state_next` becomes null);
but given the target as a state **name**, the
`assert isinstance(state, State)` of models.py line 205 fails, so a string
target never reaches the update. -/
theorem C5_queryset_rejects_state_given_as_name :
    stateTransitionQueryset demoG.states [⟨1, "new", 0, some 0⟩]
        (.obj "done") 500 =
      .ok [⟨1, "done", 500, none⟩]
    ∧ stateTransitionQueryset demoG.states [⟨1, "new", 0, some 0⟩]
        (.str "done") 500 =
      .error "AssertionError: isinstance(state, State)" := by
  decide

/-- C10: `State(retry_after=0)` is accepted by the constructor (its check
is only `retry_after < 0`), but graph validation tests truthiness
(`if not state.retry_after:`), so a non-terminal, non-externally-progressed
state with `retry_after = 0` is rejected with the same
"has no retry_after" error as one whose `retry_after` is absent. -/
theorem C10_zero_retry_after_rejected_like_missing :
    stateInit "a" none false 0 (some 0) none false =
      .ok ⟨"a", none, false, 0, some 0, none, false, [], [], none, none⟩
    ∧ initSubclass
        ⟨transitionsTo
          [⟨"a", none, false, 0, some 0, none, false, [], [], none, none⟩,
           ⟨"b", none, false, 0, none, none, false, [], [], none, none⟩]
          "a" "b",
         [("check_a", true)]⟩ =
      .error "ValueError: State a has no retry_after and is not terminal or manual"
    ∧ initSubclass
        ⟨transitionsTo
          [⟨"a", none, false, 0, none, none, false, [], [], none, none⟩,
           ⟨"b", none, false, 0, none, none, false, [], [], none, none⟩]
          "a" "b",
         [("check_a", true)]⟩ =
      .error "ValueError: State a has no retry_after and is not terminal or manual"
    := by
  decide

/-- C7 counterexample: the claim fails for a zero-second timeout.  In the
graph `a.timeout_to(b, seconds=0)` the state `a` has `timeout_state = b`
set and `timeout_after = 0`; a row of age `100 ≥ 0` whose handler produced
no transition should, per the claim, be forced into `b` — but the check of
models.py line 168 tests `current_state.timeout_after` for truthiness, so
a zero timeout never fires and the row is merely rescheduled. -/
theorem C7_cex_zero_second_timeout_never_fires :
    ((zeroTmoG.states.find? (fun s => s.name == "a")).map
        StateSpec.timeout_state) = some (some "b")
    ∧ ((zeroTmoG.states.find? (fun s => s.name == "a")).map
        StateSpec.timeout_after) = some (some 0)
    ∧ stateTransitionCheck zeroTmoG.states ⟨1, "a", 900, some 1000⟩
        (.returns none) 1000 =
      .noTransition ⟨1, "a", 900, some 433000⟩
    ∧ (stateTransitionCheck zeroTmoG.states ⟨1, "a", 900, some 1000⟩
        (.returns none) 1000).isTransition = false := by
  decide

/-- C9: for every graph, row and time, a handler that raises
`TryAgainLater`, the injected `TimeoutError`, or any other exception makes
`state_transition_check` behave exactly as if the handler had returned no
transition: the exception is swallowed at the engine boundary (lines
148-151 of models.py), no declared transition is applied, and the check
never propagates the handler's exception. -/
theorem C9_handler_exceptions_treated_as_no_transition
    (graphStates : List StateSpec) (row : Row) (now : Time) :
    stateTransitionCheck graphStates row .raisesTryAgainLater now =
      stateTransitionCheck graphStates row (.returns none) now
    ∧ stateTransitionCheck graphStates row .raisesTimeout now =
      stateTransitionCheck graphStates row (.returns none) now
    ∧ stateTransitionCheck graphStates row .raisesOther now =
      stateTransitionCheck graphStates row (.returns none) now := by
  refine ⟨?_, ?_, ?_⟩ <;>
    (unfold stateTransitionCheck
     cases graphStates.find? (fun s => s.name == row.state) <;> rfl)

/-- C8: declared-edge safety of `state_transition_check`.  For every graph
whose resolved current state is automatic (not externally progressed) and
whose timeout edge, if any, is among its children (as `timeout_to`
guarantees): if the handler's return value resolves to a state name that
is not in `current.children`, the check raises the "not a declared
transition" `ValueError` (models.py lines 158-161) and, the exception
propagating, the row is not updated; and every transition the check does
produce moves the row to a member of `current.children`. -/
theorem C8_declared_edge_safety (graphStates : List StateSpec) (row : Row)
    (v : HandlerValue) (now : Time) (current : StateSpec) (n : String)
    (hfind : graphStates.find? (fun s => s.name == row.state) = some current)
    (hext : current.externally_progressed = false)
    (hwf : ∀ ts, current.timeout_state = some ts → ts ∈ current.children) :
    (handlerResolves graphStates v = some n → n ∉ current.children →
      stateTransitionCheck graphStates row (.returns (some v)) now =
        .raised ("ValueError: Cannot transition from " ++ current.name ++
          " to " ++ n ++ " - not a declared transition"))
    ∧ (∀ s2 row2,
        stateTransitionCheck graphStates row (.returns (some v)) now =
          .transitioned s2 row2 →
        s2 ∈ current.children ∧ row2.state = s2) := by
  constructor
  · intro hres hnot
    cases v with
    | stateObj m =>
      have hmn : m = n := by simpa [handlerResolves] using hres
      subst hmn
      rw [check_eval_truthy graphStates row (.stateObj m) now current hfind
        hext (by simp [handlerValueTruthy])]
      simp only [applyDeclared]
      rw [if_neg hnot]
    | stateName s =>
      have hs : s ≠ "" := by
        intro h0
        subst h0
        simp [handlerResolves] at hres
      simp only [handlerResolves, if_neg hs] at hres
      obtain ⟨st, hfst, hstn⟩ := Option.map_eq_some'.mp hres
      have htr : handlerValueTruthy (.stateName s) = true := by
        simp [handlerValueTruthy, hs]
      rw [check_eval_truthy graphStates row _ now current hfind hext htr]
      simp only [applyDeclared, hfst]
      rw [hstn, if_neg hnot]
  · intro s2 row2 h
    by_cases htr : handlerValueTruthy v = true
    · rw [check_eval_truthy graphStates row v now current hfind hext htr] at h
      exact applyDeclared_transitioned _ _ _ _ _ _ _ h
    · have hno : noTransitionOutcome (.returns (some v)) = true := by
        simp [noTransitionOutcome, Bool.eq_false_iff.mpr htr]
      rw [check_eval_noTransition graphStates row _ now current hfind hext hno] at h
      obtain ⟨hts, hst⟩ := afterHandler_transitioned _ _ _ _ _ _ h
      exact ⟨hwf s2 hts, hst⟩

/-- C8 witness: in the demo graph, a handler on `new` returning the state
object `nope` (not a declared child of `new`) makes the check fail loudly
with the `ValueError`. -/
theorem C8_declared_edge_safety_witness :
    stateTransitionCheck demoG.states ⟨1, "new", 0, some 50⟩
        (.returns (some (.stateObj "nope"))) 50 =
      .raised "ValueError: Cannot transition from new to nope - not a declared transition" := by
  exact
    (C8_declared_edge_safety demoG.states ⟨1, "new", 0, some 50⟩
      (.stateObj "nope") 50
      ⟨"new", some "check_new", false, 0, some 30, none, false, [],
        ["done", "timed_out"], some "timed_out", some 10⟩
      "nope" (by decide) (by decide)
      (by
        intro ts h
        simp only [Option.some.injEq] at h
        subst h
        decide)).1
      (by decide) (by decide)

/-- C7 (amended): the timeout is evaluated only after the handler.  If the
handler's return value resolves to a declared child of the current state,
that declared transition is applied and returned — even when the timeout
deadline has already passed (the hypotheses place no bound on the row's
age).  And whenever the handler produced no transition (falsy return or
caught exception), `current.timeout_state` is set with a **nonzero**
`timeout_after`, and `now - row.state_changed ≥ timeout_after`, the row is
forced into the timeout state and that state is returned.  (The original
claim, without the nonzero qualification, fails: see the counterexample
with `timeout_after = 0`.) -/
theorem C7_timeout_after_handler (graphStates : List StateSpec) (row : Row)
    (outcome : HandlerOutcome) (now : Time) (current : StateSpec)
    (ts : String) (ta : Int) (q : StateSpec)
    (hfind : graphStates.find? (fun s => s.name == row.state) = some current)
    (hext : current.externally_progressed = false)
    (hno : noTransitionOutcome outcome = true)
    (hts : current.timeout_state = some ts)
    (hta : current.timeout_after = some ta)
    (hta0 : ta ≠ 0)
    (hage : ta ≤ now - row.state_changed)
    (hq : graphStates.find? (fun s => s.name == ts) = some q) :
    stateTransitionCheck graphStates row outcome now =
      .transitioned ts { row with
        state := ts
        state_changed := now
        state_next :=
          if q.externally_progressed then none
          else some (now + q.start_after) }
    ∧ (∀ v n p, handlerValueTruthy v = true →
        handlerResolves graphStates v = some n →
        n ∈ current.children →
        graphStates.find? (fun s => s.name == n) = some p →
        stateTransitionCheck graphStates row (.returns (some v)) now =
          .transitioned n { row with
            state := n
            state_changed := now
            state_next :=
              if p.externally_progressed then none
              else some (now + p.start_after) }) := by
  constructor
  · rw [check_eval_noTransition graphStates row outcome now current hfind hext hno]
    simp only [afterHandler, hts]
    have hcond : (optTruthy current.timeout_after &&
        decide (current.timeout_after.getD 0 ≤ now - row.state_changed)) = true := by
      rw [hta]
      simp [optTruthy, hta0, hage]
    rw [if_pos hcond]
    rcases applyCheckTransition_eval graphStates row ts now with ⟨hn, _⟩ | ⟨q2, hq2, _, he⟩
    · rw [hq] at hn
      exact absurd hn (by simp)
    · rw [hq] at hq2
      injection hq2 with hq2
      rw [hq2]
      exact he
  · intro v n p htr hres hmem hp
    rw [check_eval_truthy graphStates row v now current hfind hext htr]
    cases v with
    | stateObj m =>
      have hmn : m = n := by simpa [handlerResolves] using hres
      subst hmn
      simp only [applyDeclared]
      rw [if_pos hmem]
      rcases applyCheckTransition_eval graphStates row m now with ⟨hn2, _⟩ | ⟨q2, hq2, _, he⟩
      · rw [hp] at hn2
        exact absurd hn2 (by simp)
      · rw [hp] at hq2
        injection hq2 with hq2
        rw [hq2]
        exact he
    | stateName s =>
      have hs : s ≠ "" := by
        intro h0
        subst h0
        simp [handlerValueTruthy] at htr
      simp only [handlerResolves, if_neg hs] at hres
      obtain ⟨st, hfst, hstn⟩ := Option.map_eq_some'.mp hres
      simp only [applyDeclared, hfst, hstn]
      rw [if_pos hmem]
      rcases applyCheckTransition_eval graphStates row n now with ⟨hn2, _⟩ | ⟨q2, hq2, _, he⟩
      · rw [hp] at hn2
        exact absurd hn2 (by simp)
      · rw [hp] at hq2
        injection hq2 with hq2
        rw [hq2]
        exact he

/-- C7 witness: in the demo graph, a row in `new` of age 50 whose handler
returned no transition is forced into `timed_out` (`timeout_after = 10`),
which is externally progressed after validation, so `state_next` becomes
null. -/
theorem C7_timeout_after_handler_witness :
    stateTransitionCheck demoG.states ⟨1, "new", 0, some 50⟩
        (.returns none) 50 =
      .transitioned "timed_out" ⟨1, "timed_out", 50, none⟩ := by
  exact
    (C7_timeout_after_handler demoG.states ⟨1, "new", 0, some 50⟩
      (.returns none) 50
      ⟨"new", some "check_new", false, 0, some 30, none, false, [],
        ["done", "timed_out"], some "timed_out", some 10⟩
      "timed_out" 10
      ⟨"timed_out", some "check_timed_out", true, 0, none, some 10, false,
        ["timed_out"], [], none, none⟩
      (by decide) (by decide) (by decide) (by decide) (by decide)
      (by decide) (by decide) (by decide)).1

/-- C6: `state_get_ready` selects up to `number` rows of the table whose
`state_next` is non-null and at most `now`, returns them in ascending
`state_next` order, and in the updated table the selected rows carry
`state_next = now + lock_period * 2` seconds (the visibility timeout)
while every unselected row is unchanged. -/
theorem C6_stateGetReady_claims (db : List Row) (number : Nat)
    (lock_period : Int) (now : Time) :
    (stateGetReady db number lock_period now).1.length ≤ number
    ∧ (∀ r ∈ (stateGetReady db number lock_period now).1,
        r ∈ db ∧ ∃ t, r.state_next = some t ∧ t ≤ now)
    ∧ (stateGetReady db number lock_period now).1.Pairwise rowLE
    ∧ (∀ r ∈ db,
        r.pk ∉ (stateGetReady db number lock_period now).1.map Row.pk →
        r ∈ (stateGetReady db number lock_period now).2)
    ∧ (∀ r ∈ db,
        r.pk ∈ (stateGetReady db number lock_period now).1.map Row.pk →
        { r with state_next := some (now + lock_period * 2) } ∈
          (stateGetReady db number lock_period now).2) := by
  refine ⟨?_, ?_, ?_, ?_, ?_⟩
  · show (((db.filter (isReady now)).insertionSort rowLE).take number).length ≤ number
    rw [List.length_take]
    exact min_le_left _ _
  · intro r hr
    have hr2 : r ∈ (db.filter (isReady now)).insertionSort rowLE :=
      List.take_subset _ _ hr
    have hr3 : r ∈ db.filter (isReady now) :=
      (List.mem_insertionSort rowLE).mp hr2
    have hr4 := List.mem_filter.mp hr3
    refine ⟨hr4.1, ?_⟩
    cases ht : r.state_next with
    | none =>
      have := hr4.2
      simp [isReady, ht] at this
    | some t =>
      refine ⟨t, rfl, ?_⟩
      have := hr4.2
      simpa [isReady, ht] using this
  · show List.Pairwise rowLE (((db.filter (isReady now)).insertionSort rowLE).take number)
    exact List.Pairwise.sublist (List.take_sublist _ _)
      (List.sorted_insertionSort rowLE _)
  · intro r hrdb hnpk
    show r ∈ db.map _
    refine List.mem_map.mpr ⟨r, hrdb, ?_⟩
    exact if_neg hnpk
  · intro r hrdb hpk
    show { r with state_next := some (now + lock_period * 2) } ∈ db.map _
    refine List.mem_map.mpr ⟨r, hrdb, ?_⟩
    exact if_pos hpk

/-- C6 witness: for a concrete five-row table claiming two rows at
`now = 100` with `lock_period = 15`, the unselected ready row keeps its
`state_next` and a selected row is bumped to `130`. -/
theorem C6_stateGetReady_claims_witness :
    (⟨1, "x", 0, some 90⟩ : Row) ∈
      (stateGetReady
        [⟨1, "x", 0, some 90⟩, ⟨2, "x", 0, none⟩, ⟨3, "x", 0, some 40⟩,
         ⟨4, "x", 0, some 200⟩, ⟨5, "x", 0, some 60⟩] 2 15 100).2
    ∧ (⟨3, "x", 0, some 130⟩ : Row) ∈
      (stateGetReady
        [⟨1, "x", 0, some 90⟩, ⟨2, "x", 0, none⟩, ⟨3, "x", 0, some 40⟩,
         ⟨4, "x", 0, some 200⟩, ⟨5, "x", 0, some 60⟩] 2 15 100).2 := by
  constructor
  · exact
      (C6_stateGetReady_claims
        [⟨1, "x", 0, some 90⟩, ⟨2, "x", 0, none⟩, ⟨3, "x", 0, some 40⟩,
         ⟨4, "x", 0, some 200⟩, ⟨5, "x", 0, some 60⟩] 2 15 100).2.2.2.1
        ⟨1, "x", 0, some 90⟩ (by decide) (by decide)
  · exact
      (C6_stateGetReady_claims
        [⟨1, "x", 0, some 90⟩, ⟨2, "x", 0, none⟩, ⟨3, "x", 0, some 40⟩,
         ⟨4, "x", 0, some 200⟩, ⟨5, "x", 0, some 60⟩] 2 15 100).2.2.2.2
        ⟨3, "x", 0, some 40⟩ (by decide) (by decide)

end Stator
